import Mathlib

/-!
Shallow embedding of the `CastSession` Durable Object from `src/session.ts`
of the `cast` repository (a screen-sharing coordinator).

The object holds:
  * `sessionData : SessionData | null` — the in-memory session record,
  * the durable storage slot keyed `"sessionData"` (here the field `storage`),
  * `sessions : Map<WebSocket, {role}>` — attached channel connections
    (here a list of `Conn`, in insertion order; `isOpen` models
    `readyState === WebSocket.OPEN`).

Each HTTP route of `CastSession.fetch` becomes a pure function from the
state plus the request inputs (and an oracle for the upstream SFU
control-plane response) to a `StepOut`: the HTTP response, the new state,
and the list of events pushed to connections (pairs of connection id and
event).  All operations of one Durable Object run serialized, so one
operation is one atomic step.
-/

set_option maxHeartbeats 1000000

namespace Cast

/-- Role of an attached connection: `url.searchParams.get("role")`,
defaulting to viewer (`session.ts` line 38). -/
inductive Role
  | caster
  | viewer
deriving DecidableEq, Repr

/-- The persisted session record (`interface SessionData`, `session.ts`
lines 9–15).  `casterToken`, `callsSessionId` and `trackNames` are
optional exactly as in the TypeScript interface. -/
structure SessionData where
  sessionId : String
  createdAt : Nat
  casterToken : Option String := none
  callsSessionId : Option String := none
  trackNames : Option (List String) := none
deriving DecidableEq, Repr

/-- One attached WebSocket connection.  `id` stands for the socket's
object identity; `isOpen` models `readyState === WebSocket.OPEN`. -/
structure Conn where
  id : Nat
  role : Role
  isOpen : Bool
deriving DecidableEq, Repr

/-- State of one `CastSession` Durable Object: in-memory record,
durable storage slot, and the set of attached connections. -/
structure CastSession where
  sessionData : Option SessionData := none
  storage : Option SessionData := none
  sessions : List Conn := []
deriving DecidableEq, Repr

/-- Events pushed over the notification channel (`server.send` /
`broadcast` in `session.ts`). -/
inductive Event
  | sessionSnapshot (sessionId : String) (callsSessionId : Option String)
      (trackNames : List String)
  | callsSessionReady (sessionId : String)
  | trackAdded (trackName : String)
  | trackRemoved (trackName : String)
  | signal (payload : String)
deriving DecidableEq, Repr

/-- Response bodies produced by the handlers, one constructor per
distinct body shape in `session.ts`. -/
inductive RespBody
  | text (s : String)
  | initJson (sessionId : String) (casterToken : Option String)
  | callsSessionJson (sessionId : String) (sessionDescription : String)
  | upstreamJson (payload : String)
  | successJson
  | infoNotReady
  | infoReady (callsSessionId : String) (trackNames : List String)
  | noCallsSession
  | empty
deriving DecidableEq, Repr

/-- An HTTP response: status code and body. -/
structure HttpResponse where
  status : Nat
  body : RespBody
deriving DecidableEq, Repr

/-- Result of one handler invocation: response, new object state, and
the events sent to connections (connection id, event). -/
structure StepOut where
  resp : HttpResponse
  state : CastSession
  sends : List (Nat × Event)
deriving DecidableEq, Repr

/-- Outcome of an upstream SFU control-plane `fetch`: `ok` with the
response payload, or a non-success response carrying its error text. -/
inductive Upstream (α : Type)
  | ok (data : α)
  | err (errorText : String)
deriving DecidableEq, Repr

/-- Payload of a successful `POST /sessions/new` upstream call
(`callsData` in `session.ts` line 111). -/
structure CallsData where
  sessionId : String
  sessionDescription : String
deriving DecidableEq, Repr

/-- The string `` `Bearer ${this.sessionData.casterToken}` `` — a JS
template literal renders an `undefined` field as `"undefined"`. -/
def bearerOf : Option String → String
  | none => "Bearer undefined"
  | some t => "Bearer " ++ t

/-- The auth guard shared by the mutating routes (`session.ts` lines
87–93, 168–174, 212–218, 403–409): the request is authorized iff
`sessionData` is non-null and the `Authorization` header equals
`Bearer <casterToken>`. -/
def validAuth (st : CastSession) (auth : Option String) : Bool :=
  match st.sessionData with
  | none => false
  | some sd => decide (auth = some (bearerOf sd.casterToken))

/-- The `401 Unauthorized` result: response only, no state change, no
events. -/
def unauthorizedOut (st : CastSession) : StepOut :=
  ⟨⟨401, .text "Unauthorized"⟩, st, []⟩

/-- `broadcast` (`session.ts` lines 543–550): send to every attached
connection whose `readyState` is OPEN. -/
def broadcastSends (st : CastSession) (ev : Event) : List (Nat × Event) :=
  (st.sessions.filter (fun c => c.isOpen)).map (fun c => (c.id, ev))

/-- `POST /init` (`session.ts` lines 65–83).  `idStr` is
`ctx.id.toString()` (the handler keeps its first 8 characters),
`casterToken` is the fresh `crypto.randomUUID()`, `now` is
`Date.now()`; all three are unused when the session already exists. -/
def handleInit (st : CastSession) (idStr casterToken : String) (now : Nat) : StepOut :=
  match st.sessionData with
  | some sd => ⟨⟨200, .initJson sd.sessionId sd.casterToken⟩, st, []⟩
  | none =>
    let sd : SessionData :=
      { sessionId := idStr.take 8, createdAt := now, casterToken := some casterToken }
    ⟨⟨200, .initJson sd.sessionId sd.casterToken⟩,
     { st with sessionData := some sd, storage := some sd }, []⟩

/-- `POST /calls-session` (`session.ts` lines 86–126): auth check, then
upstream session creation; on success stores `callsSessionId`, persists,
and broadcasts `calls-session-ready`. -/
def handleCallsSession (st : CastSession) (auth : Option String)
    (up : Upstream CallsData) : StepOut :=
  match st.sessionData with
  | none => unauthorizedOut st
  | some sd =>
    if auth = some (bearerOf sd.casterToken) then
      match up with
      | .err _ => ⟨⟨500, .text "Failed to create Calls session"⟩, st, []⟩
      | .ok cd =>
        let sd' := { sd with callsSessionId := some cd.sessionId }
        ⟨⟨200, .callsSessionJson cd.sessionId cd.sessionDescription⟩,
         { st with sessionData := some sd', storage := some sd' },
         broadcastSends st (.callsSessionReady cd.sessionId)⟩
    else unauthorizedOut st

/-- `POST /init-connection` (`session.ts` lines 129–164): auth check,
then upstream renegotiate; no local state change, no broadcast. -/
def handleInitConnection (st : CastSession) (auth : Option String)
    (up : Upstream String) : StepOut :=
  match st.sessionData with
  | none => unauthorizedOut st
  | some sd =>
    if auth = some (bearerOf sd.casterToken) then
      match up with
      | .err e => ⟨⟨500, .text ("Failed to init connection: " ++ e)⟩, st, []⟩
      | .ok p => ⟨⟨200, .upstreamJson p⟩, st, []⟩
    else unauthorizedOut st

/-- `POST /renegotiate` (`session.ts` lines 167–208): auth check, then
upstream renegotiate; no local state change, no broadcast. -/
def handleRenegotiate (st : CastSession) (auth : Option String)
    (up : Upstream String) : StepOut :=
  match st.sessionData with
  | none => unauthorizedOut st
  | some sd =>
    if auth = some (bearerOf sd.casterToken) then
      match up with
      | .err e => ⟨⟨500, .text ("Failed to renegotiate: " ++ e)⟩, st, []⟩
      | .ok p => ⟨⟨200, .upstreamJson p⟩, st, []⟩
    else unauthorizedOut st

/-- `POST /add-track` (`session.ts` lines 211–292): auth check, then the
upstream `tracks/new` call; only on success the name is added to
`trackNames` (skipped if already present), the record persisted and
`track-added` broadcast.  The handler never consults the stored
`callsSessionId`; the request supplies its own. -/
def handleAddTrack (st : CastSession) (auth : Option String)
    (trackName : String) (up : Upstream String) : StepOut :=
  match st.sessionData with
  | none => unauthorizedOut st
  | some sd =>
    if auth = some (bearerOf sd.casterToken) then
      match up with
      | .err e => ⟨⟨500, .text ("Failed to add track: " ++ e)⟩, st, []⟩
      | .ok p =>
        let tns := sd.trackNames.getD []
        let tns' := if trackName ∈ tns then tns else tns ++ [trackName]
        let sd' := { sd with trackNames := some tns' }
        ⟨⟨200, .upstreamJson p⟩,
         { st with sessionData := some sd', storage := some sd' },
         broadcastSends st (.trackAdded trackName)⟩
    else unauthorizedOut st

/-- `POST /new-session` (`session.ts` lines 295–317): unauthenticated
upstream proxy; no state change. -/
def handleNewSession (st : CastSession) (up : Upstream String) : StepOut :=
  match up with
  | .err e => ⟨⟨500, .text ("Failed to create new session: " ++ e)⟩, st, []⟩
  | .ok p => ⟨⟨200, .upstreamJson p⟩, st, []⟩

/-- `POST /pull-tracks` (`session.ts` lines 320–355): 404 when no
`callsSessionId` is linked; otherwise unauthenticated upstream proxy
with a fixed-text 500 on failure; no state change. -/
def handlePullTracks (st : CastSession) (up : Upstream String) : StepOut :=
  match st.sessionData with
  | none => ⟨⟨404, .text "No active session"⟩, st, []⟩
  | some sd =>
    match sd.callsSessionId with
    | none => ⟨⟨404, .text "No active session"⟩, st, []⟩
    | some _ =>
      match up with
      | .err _ => ⟨⟨500, .text "Failed to pull tracks"⟩, st, []⟩
      | .ok p => ⟨⟨200, .upstreamJson p⟩, st, []⟩

/-- `POST /viewer-renegotiate` (`session.ts` lines 358–399):
unauthenticated upstream proxy; no state change. -/
def handleViewerRenegotiate (st : CastSession) (up : Upstream String) : StepOut :=
  match up with
  | .err e => ⟨⟨500, .text ("Failed to renegotiate: " ++ e)⟩, st, []⟩
  | .ok p => ⟨⟨200, .upstreamJson p⟩, st, []⟩

/-- `POST /remove-track` (`session.ts` lines 402–427): auth check; if
`trackNames` is set, filter the name out and persist; always broadcast
`track-removed` and return `{success:true}`.  No upstream call. -/
def handleRemoveTrack (st : CastSession) (auth : Option String)
    (trackName : String) : StepOut :=
  match st.sessionData with
  | none => unauthorizedOut st
  | some sd =>
    if auth = some (bearerOf sd.casterToken) then
      let st' :=
        match sd.trackNames with
        | none => st
        | some tns =>
          let sd' := { sd with trackNames := some (tns.filter (fun tn => tn ≠ trackName)) }
          { st with sessionData := some sd', storage := some sd' }
      ⟨⟨200, .successJson⟩, st', broadcastSends st (.trackRemoved trackName)⟩
    else unauthorizedOut st

/-- `GET /info` (`session.ts` lines 430–440): unauthenticated; reports
`{ready:false}` unless a `callsSessionId` is linked, otherwise the
linked id and the track names (`[]` when unset). -/
def handleInfo (st : CastSession) : StepOut :=
  match st.sessionData with
  | none => ⟨⟨200, .infoNotReady⟩, st, []⟩
  | some sd =>
    match sd.callsSessionId with
    | none => ⟨⟨200, .infoNotReady⟩, st, []⟩
    | some cid => ⟨⟨200, .infoReady cid (sd.trackNames.getD [])⟩, st, []⟩

/-- `GET /calls-state` (`session.ts` lines 443–474): auth check, then a
debug proxy of the linked session's upstream state; no state change. -/
def handleCallsState (st : CastSession) (auth : Option String)
    (up : Upstream String) : StepOut :=
  match st.sessionData with
  | none => unauthorizedOut st
  | some sd =>
    if auth = some (bearerOf sd.casterToken) then
      match sd.callsSessionId with
      | none => ⟨⟨200, .noCallsSession⟩, st, []⟩
      | some _ =>
        match up with
        | .err e => ⟨⟨500, .text ("Failed to get state: " ++ e)⟩, st, []⟩
        | .ok p => ⟨⟨200, .upstreamJson p⟩, st, []⟩
    else unauthorizedOut st

/-- `POST /viewer-calls-state` (`session.ts` lines 477–500):
unauthenticated debug proxy; no state change. -/
def handleViewerCallsState (st : CastSession) (up : Upstream String) : StepOut :=
  match up with
  | .err e => ⟨⟨500, .text ("Failed to get state: " ++ e)⟩, st, []⟩
  | .ok p => ⟨⟨200, .upstreamJson p⟩, st, []⟩

/-- WebSocket upgrade branch (`session.ts` lines 34–61): accept the
socket, register it with its role, and — only when `sessionData` is
non-null — send the `session-data` snapshot to the new connection. -/
def handleWsAttach (st : CastSession) (connId : Nat) (role : Role) : StepOut :=
  let st' := { st with sessions := st.sessions ++ [⟨connId, role, true⟩] }
  let sends : List (Nat × Event) :=
    match st.sessionData with
    | none => []
    | some sd =>
      [(connId, Event.sessionSnapshot sd.sessionId sd.callsSessionId (sd.trackNames.getD []))]
  ⟨⟨101, .empty⟩, st', sends⟩

/-- An incoming WebSocket message, as `webSocketMessage` classifies it:
a parsed JSON object with `type === "signal"` (its full payload kept
opaque), any other parsed object, a non-string frame, or a frame whose
`JSON.parse` throws. -/
inductive WsMsg
  | signal (payload : String)
  | other
  | binary
  | malformed
deriving DecidableEq, Repr

/-- `this.sessions.get(ws)` is defined, i.e. the sender is attached. -/
def attached (st : CastSession) (connId : Nat) : Bool :=
  st.sessions.any (fun c => c.id == connId)

/-- `webSocketMessage` (`session.ts` lines 505–526): non-string frames
and parse failures are dropped; an unattached sender is ignored; a
`signal` message is forwarded verbatim to every other attached open
connection.  The coordinator state is unchanged. -/
def webSocketMessage (st : CastSession) (sender : Nat) (m : WsMsg) :
    List (Nat × Event) :=
  match m with
  | .binary => []
  | .malformed => []
  | .other => []
  | .signal p =>
    if attached st sender then
      (st.sessions.filter (fun c => c.id != sender && c.isOpen)).map
        (fun c => (c.id, Event.signal p))
    else []

/-- `webSocketClose` / `webSocketError` (`session.ts` lines 528–541):
remove the connection from the map. -/
def wsDetach (st : CastSession) (connId : Nat) : CastSession :=
  { st with sessions := st.sessions.filter (fun c => c.id ≠ connId) }

/-- One operation of the coordinator, with the request inputs and the
upstream oracle baked in.  `restart` models a Durable Object restart:
the constructor re-reads `sessionData` from storage
(`session.ts` lines 21–28) and the in-memory connection map is lost. -/
inductive Op
  | init (idStr casterToken : String) (now : Nat)
  | callsSession (auth : Option String) (up : Upstream CallsData)
  | initConnection (auth : Option String) (up : Upstream String)
  | renegotiate (auth : Option String) (up : Upstream String)
  | addTrack (auth : Option String) (trackName : String) (up : Upstream String)
  | newSession (up : Upstream String)
  | pullTracks (up : Upstream String)
  | viewerRenegotiate (up : Upstream String)
  | removeTrack (auth : Option String) (trackName : String)
  | infoReq
  | callsState (auth : Option String) (up : Upstream String)
  | viewerCallsState (up : Upstream String)
  | wsAttach (connId : Nat) (role : Role)
  | wsMsg (sender : Nat) (m : WsMsg)
  | wsClose (connId : Nat)
  | restart

/-- State part of one operation step. -/
def stepState (st : CastSession) : Op → CastSession
  | .init i t n => (handleInit st i t n).state
  | .callsSession a up => (handleCallsSession st a up).state
  | .initConnection a up => (handleInitConnection st a up).state
  | .renegotiate a up => (handleRenegotiate st a up).state
  | .addTrack a tn up => (handleAddTrack st a tn up).state
  | .newSession up => (handleNewSession st up).state
  | .pullTracks up => (handlePullTracks st up).state
  | .viewerRenegotiate up => (handleViewerRenegotiate st up).state
  | .removeTrack a tn => (handleRemoveTrack st a tn).state
  | .infoReq => (handleInfo st).state
  | .callsState a up => (handleCallsState st a up).state
  | .viewerCallsState up => (handleViewerCallsState st up).state
  | .wsAttach c r => (handleWsAttach st c r).state
  | .wsMsg _ _ => st
  | .wsClose c => wsDetach st c
  | .restart => { sessionData := st.storage, storage := st.storage, sessions := [] }

/-- Run a sequence of operations from a state. -/
def runOps (st : CastSession) (ops : List Op) : CastSession :=
  ops.foldl stepState st

/-- The state of a freshly created Durable Object: nothing stored,
nothing in memory, no connections. -/
def initialState : CastSession := {}

/-- A state is reachable when some operation sequence produces it from
the fresh state. -/
def Reachable (st : CastSession) : Prop :=
  ∃ ops : List Op, runOps initialState ops = st

/-- The track list exposed by a state: `trackNames || []` of the
session record, `[]` when uninitialized. -/
def tracksOf (st : CastSession) : List String :=
  match st.sessionData with
  | none => []
  | some sd => sd.trackNames.getD []

/-- The text of a `text` body (used to inspect error responses). -/
def bodyTextOf : RespBody → String
  | .text s => s
  | _ => ""

/-- `sub` occurs as a contiguous substring of `s`. -/
def containsSub (s sub : String) : Bool :=
  (List.range (s.toList.length + 1)).any
    (fun i => sub.toList.isPrefixOf (s.toList.drop i))

/-! ## Concrete states used by witnesses and counterexamples -/

/-- An initialized session with token `"tok"`, no SFU link, no tracks. -/
def sdInit : SessionData :=
  { sessionId := "s1", createdAt := 0, casterToken := some "tok" }

/-- Coordinator holding `sdInit`, with one open viewer connection. -/
def stInit : CastSession :=
  { sessionData := some sdInit, storage := some sdInit,
    sessions := [⟨7, Role.viewer, true⟩] }

/-- An initialized, SFU-linked session with one track `"v1"`. -/
def sdLinked : SessionData :=
  { sessionId := "s1", createdAt := 0, casterToken := some "tok",
    callsSessionId := some "sfu1", trackNames := some ["v1"] }

/-- Coordinator holding `sdLinked`, with two open connections. -/
def stLinked : CastSession :=
  { sessionData := some sdLinked, storage := some sdLinked,
    sessions := [⟨1, Role.caster, true⟩, ⟨2, Role.viewer, true⟩] }

/-- Operation sequence: initialize, then add a track with the valid
bearer token and a successful upstream call — without ever creating an
SFU session. -/
def c8Ops : List Op :=
  [Op.init "abcd1234" "tok" 0,
   Op.addTrack (some "Bearer tok") "t1" (Upstream.ok "trackData")]

/-! ## Theorems -/

/-- Claim C2: `init` is idempotent — a second (and any later) call
returns the same `sessionId` and `casterToken` as the first, leaves the
stored session record unchanged, and `init` never fails (status 200). -/
theorem init_idempotent (st : CastSession) (i1 t1 : String) (n1 : Nat)
    (i2 t2 : String) (n2 : Nat) :
    (handleInit (handleInit st i1 t1 n1).state i2 t2 n2).resp
        = (handleInit st i1 t1 n1).resp
    ∧ (handleInit (handleInit st i1 t1 n1).state i2 t2 n2).state
        = (handleInit st i1 t1 n1).state
    ∧ (handleInit st i1 t1 n1).resp.status = 200
    ∧ (handleInit (handleInit st i1 t1 n1).state i2 t2 n2).resp.status = 200 := by
  cases h : st.sessionData <;> simp [handleInit, h]

/-- Claim C9 (amended): each channel attach registers the connection at
the end of the map and returns the 101 upgrade response (attach never
fails); the `session-data` snapshot with the current `callsSessionId`
and `trackNames` is pushed to the new connection exactly when the
session record exists, and no snapshot is sent to an uninitialized
session's attacher. -/
theorem wsAttach_spec (st : CastSession) (connId : Nat) (role : Role) :
    (handleWsAttach st connId role).resp = ⟨101, RespBody.empty⟩
    ∧ (handleWsAttach st connId role).state
        = { st with sessions := st.sessions ++ [⟨connId, role, true⟩] }
    ∧ (handleWsAttach st connId role).sends
        = (match st.sessionData with
           | none => []
           | some sd =>
             [(connId, Event.sessionSnapshot sd.sessionId sd.callsSessionId
                 (sd.trackNames.getD []))]) :=
  ⟨rfl, rfl, rfl⟩

/-- Claim C9, counterexample: attaching to a fresh (uninitialized)
session pushes no snapshot event at all, contradicting the claim that
every attach immediately pushes a `session-data` snapshot. -/
theorem wsAttach_uninitialized_no_snapshot :
    initialState.sessionData = none
    ∧ (handleWsAttach initialState 0 Role.viewer).sends = [] :=
  ⟨rfl, rfl⟩

/-- Claim C6: `info` never fails (always status 200, no state change, no
broadcast, no authentication consulted); it reports `{ready:false}`
whenever no SFU session is linked, and otherwise `ready:true` with the
stored `callsSessionId` and `trackNames` (defaulting to `[]`). -/
theorem info_spec (st : CastSession) :
    (handleInfo st).state = st
    ∧ (handleInfo st).sends = []
    ∧ (handleInfo st).resp.status = 200
    ∧ (st.sessionData.bind SessionData.callsSessionId = none →
        (handleInfo st).resp.body = RespBody.infoNotReady)
    ∧ (∀ sd cid, st.sessionData = some sd → sd.callsSessionId = some cid →
        (handleInfo st).resp.body = RespBody.infoReady cid (sd.trackNames.getD [])) := by
  refine ⟨?_, ?_, ?_, ?_, ?_⟩
  · cases h : st.sessionData with
    | none => simp [handleInfo, h]
    | some sd => cases hc : sd.callsSessionId <;> simp [handleInfo, h, hc]
  · cases h : st.sessionData with
    | none => simp [handleInfo, h]
    | some sd => cases hc : sd.callsSessionId <;> simp [handleInfo, h, hc]
  · cases h : st.sessionData with
    | none => simp [handleInfo, h]
    | some sd => cases hc : sd.callsSessionId <;> simp [handleInfo, h, hc]
  · intro hn
    cases h : st.sessionData with
    | none => simp [handleInfo, h]
    | some sd =>
      rw [h] at hn
      simp only [Option.bind] at hn
      cases hc : sd.callsSessionId with
      | none => simp [handleInfo, h, hc]
      | some cid => rw [hc] at hn; simp at hn
  · intro sd cid hsd hc
    simp [handleInfo, hsd, hc]

/-- Claim C6, witness at a linked state with one track. -/
theorem info_spec_witness :
    (handleInfo stLinked).resp.body = RespBody.infoReady "sfu1" ["v1"] :=
  (info_spec stLinked).2.2.2.2 sdLinked "sfu1" rfl rfl

/-- Claim C4: with a valid caster token, an `add-track` whose upstream
SFU call fails returns exactly HTTP 500 with the upstream error text,
and the state — in particular `trackNames` and the storage slot — is
completely unchanged and nothing is broadcast. -/
theorem addTrack_upstream_failure (st : CastSession) (sd : SessionData)
    (auth : Option String) (tn e : String)
    (hsd : st.sessionData = some sd)
    (ha : auth = some (bearerOf sd.casterToken)) :
    handleAddTrack st auth tn (Upstream.err e)
      = ⟨⟨500, RespBody.text ("Failed to add track: " ++ e)⟩, st, []⟩ := by
  simp [handleAddTrack, hsd, ha]

/-- Claim C4, witness at an initialized state. -/
theorem addTrack_upstream_failure_witness :
    handleAddTrack stInit (some "Bearer tok") "t1" (Upstream.err "boom")
      = ⟨⟨500, RespBody.text "Failed to add track: boom"⟩, stInit, []⟩ :=
  addTrack_upstream_failure stInit sdInit (some "Bearer tok") "t1" "boom" rfl rfl

/-- Claim C1: every mutating operation (create SFU session,
renegotiate, add track, remove track) whose `Authorization` header is
not exactly `Bearer <casterToken>` of an initialized session — which
includes every request before initialization — returns HTTP 401
Unauthorized, leaves the whole state (session record, storage slot,
connections) unchanged, and broadcasts nothing. -/
theorem unauthorized_no_effect (st : CastSession) (auth : Option String)
    (upC : Upstream CallsData) (upS upA : Upstream String) (tnA tnR : String)
    (h : validAuth st auth = false) :
    handleCallsSession st auth upC = ⟨⟨401, RespBody.text "Unauthorized"⟩, st, []⟩
    ∧ handleRenegotiate st auth upS = ⟨⟨401, RespBody.text "Unauthorized"⟩, st, []⟩
    ∧ handleAddTrack st auth tnA upA = ⟨⟨401, RespBody.text "Unauthorized"⟩, st, []⟩
    ∧ handleRemoveTrack st auth tnR = ⟨⟨401, RespBody.text "Unauthorized"⟩, st, []⟩ := by
  cases hsd : st.sessionData with
  | none =>
    simp [handleCallsSession, handleRenegotiate, handleAddTrack, handleRemoveTrack,
      hsd, unauthorizedOut]
  | some sd =>
    have hne : ¬ (auth = some (bearerOf sd.casterToken)) := by
      simpa [validAuth, hsd] using h
    simp [handleCallsSession, handleRenegotiate, handleAddTrack, handleRemoveTrack,
      hsd, hne, unauthorizedOut]

/-- Claim C1, witness: a request with no `Authorization` header against
an uninitialized session. -/
theorem unauthorized_no_effect_witness :
    handleAddTrack initialState none "t1" (Upstream.ok "d")
      = ⟨⟨401, RespBody.text "Unauthorized"⟩, initialState, []⟩ :=
  (unauthorized_no_effect initialState none (Upstream.ok ⟨"s", "d"⟩)
    (Upstream.ok "d") (Upstream.ok "d") "t1" "t1" rfl).2.2.1

/-- Claim C3: the track set is idempotent — with a valid token and
successful upstream calls, adding the same name twice leaves the same
`trackNames` as adding it once (in particular a name already present is
not duplicated), and removing a name absent from `trackNames` leaves
`trackNames` unchanged. -/
theorem track_set_idempotent (st : CastSession) (sd : SessionData)
    (auth : Option String) (t p q : String)
    (hsd : st.sessionData = some sd)
    (ha : auth = some (bearerOf sd.casterToken)) :
    tracksOf (handleAddTrack
        (handleAddTrack st auth t (Upstream.ok p)).state auth t (Upstream.ok q)).state
      = tracksOf (handleAddTrack st auth t (Upstream.ok p)).state
    ∧ (t ∉ tracksOf st →
        tracksOf (handleRemoveTrack st auth t).state = tracksOf st) := by
  constructor
  · by_cases hmem : t ∈ sd.trackNames.getD []
    · simp [handleAddTrack, hsd, ha, hmem, tracksOf]
    · simp [handleAddTrack, hsd, ha, hmem, tracksOf]
  · intro hnot
    simp only [tracksOf, hsd] at hnot
    cases htn : sd.trackNames with
    | none => simp [handleRemoveTrack, hsd, ha, htn, tracksOf]
    | some tns =>
      rw [htn] at hnot
      simp only [Option.getD_some] at hnot
      have hfix : tns.filter (fun tn => tn ≠ t) = tns := by
        apply List.filter_eq_self.mpr
        intro x hx
        have : x ≠ t := fun hxt => hnot (hxt ▸ hx)
        simpa using this
      simp [handleRemoveTrack, hsd, ha, htn, tracksOf, hfix]
      intro a ha' hat
      exact hnot (hat ▸ ha')

/-- Claim C3, witness: two adds of `"t1"` from a freshly initialized
session yield `trackNames = ["t1"]`, and removing the absent name
`"absent"` is a no-op on the (empty) track set. -/
theorem track_set_idempotent_witness :
    tracksOf (handleAddTrack
        (handleAddTrack stInit (some "Bearer tok") "t1" (Upstream.ok "a")).state
        (some "Bearer tok") "t1" (Upstream.ok "b")).state = ["t1"]
    ∧ tracksOf (handleRemoveTrack stInit (some "Bearer tok") "absent").state = [] := by
  have h := track_set_idempotent stInit sdInit (some "Bearer tok") "t1" "a" "b" rfl rfl
  have h2 := track_set_idempotent stInit sdInit (some "Bearer tok") "absent" "a" "b" rfl rfl
  refine ⟨?_, ?_⟩
  · rw [h.1]; rfl
  · rw [h2.2 (by decide)]; rfl

/-- Claim C5 (amended): every upstream-proxying operation returns HTTP
500 when the upstream SFU call fails, but only `renegotiate`,
`add track`, `new viewer session` and `viewer renegotiate` include the
upstream error text in the body; `create SFU session` and `pull tracks`
return fixed bodies that omit it. -/
theorem upstream_failure_bodies (st : CastSession) (sd : SessionData)
    (auth : Option String) (e tn cid : String)
    (hsd : st.sessionData = some sd)
    (ha : auth = some (bearerOf sd.casterToken))
    (hlink : sd.callsSessionId = some cid) :
    (handleCallsSession st auth (Upstream.err e)).resp
        = ⟨500, RespBody.text "Failed to create Calls session"⟩
    ∧ (handleRenegotiate st auth (Upstream.err e)).resp
        = ⟨500, RespBody.text ("Failed to renegotiate: " ++ e)⟩
    ∧ (handleAddTrack st auth tn (Upstream.err e)).resp
        = ⟨500, RespBody.text ("Failed to add track: " ++ e)⟩
    ∧ (handleNewSession st (Upstream.err e)).resp
        = ⟨500, RespBody.text ("Failed to create new session: " ++ e)⟩
    ∧ (handlePullTracks st (Upstream.err e)).resp
        = ⟨500, RespBody.text "Failed to pull tracks"⟩
    ∧ (handleViewerRenegotiate st (Upstream.err e)).resp
        = ⟨500, RespBody.text ("Failed to renegotiate: " ++ e)⟩ := by
  refine ⟨?_, ?_, ?_, ?_, ?_, ?_⟩ <;>
    simp [handleCallsSession, handleRenegotiate, handleAddTrack, handleNewSession,
      handlePullTracks, handleViewerRenegotiate, hsd, ha, hlink]

/-- Claim C5, witness at a linked state. -/
theorem upstream_failure_bodies_witness :
    (handleCallsSession stLinked (some "Bearer tok") (Upstream.err "boom")).resp
      = ⟨500, RespBody.text "Failed to create Calls session"⟩ :=
  (upstream_failure_bodies stLinked sdLinked (some "Bearer tok") "boom" "t1" "sfu1"
    rfl rfl rfl).1

/-- Claim C5, counterexample: the `create SFU session` operation's 500
response body is the fixed string `"Failed to create Calls session"`,
which does not contain the upstream error text `"boom"` — refuting the
claim that every upstream-proxying operation surfaces the upstream
error text verbatim. -/
theorem callsSession_error_text_dropped :
    (handleCallsSession stInit (some "Bearer tok") (Upstream.err "boom")).resp.status = 500
    ∧ bodyTextOf (handleCallsSession stInit (some "Bearer tok")
        (Upstream.err "boom")).resp.body = "Failed to create Calls session"
    ∧ containsSub (bodyTextOf (handleCallsSession stInit (some "Bearer tok")
        (Upstream.err "boom")).resp.body) "boom" = false := by
  refine ⟨rfl, rfl, by decide⟩

/-- Claim C7: a `signal` message from an attached sender is forwarded —
with its exact payload — to precisely the other attached connections
that are open: every other open attached connection receives it, the
sender never receives an echo, and closed connections are skipped. -/
theorem signal_relay (st : CastSession) (sender : Nat) (p : String)
    (h : attached st sender = true) :
    webSocketMessage st sender (WsMsg.signal p)
      = (st.sessions.filter (fun c => c.id != sender && c.isOpen)).map
          (fun c => (c.id, Event.signal p))
    ∧ (∀ c ∈ st.sessions, c.id ≠ sender → c.isOpen = true →
        (c.id, Event.signal p) ∈ webSocketMessage st sender (WsMsg.signal p))
    ∧ (∀ ev ∈ webSocketMessage st sender (WsMsg.signal p), ev.1 ≠ sender) := by
  refine ⟨by simp [webSocketMessage, h], ?_, ?_⟩
  · intro c hc hne hop
    simp only [webSocketMessage, h, if_true]
    exact List.mem_map_of_mem _ (List.mem_filter.mpr ⟨hc, by simp [hne, hop]⟩)
  · intro ev hev
    simp only [webSocketMessage, h, if_true, List.mem_map] at hev
    obtain ⟨c, hcf, hce⟩ := hev
    have := (List.mem_filter.mp hcf).2
    simp only [Bool.and_eq_true, bne_iff_ne] at this
    rw [← hce]
    exact this.1

/-- Claim C7, witness: in the linked two-connection state, a signal from
connection 1 reaches connection 2 and is not echoed back to 1. -/
theorem signal_relay_witness :
    (2, Event.signal "sdp") ∈ webSocketMessage stLinked 1 (WsMsg.signal "sdp") :=
  (signal_relay stLinked 1 "sdp" rfl).2.1 ⟨2, Role.viewer, true⟩ (by decide)
    (by decide) rfl

/-- Claim C10: `remove-track` with a valid caster token always returns
HTTP 200 `{success:true}` and broadcasts a `track-removed` event to all
attached open connections — with no check that the named track is in
`trackNames` (or that any track was ever added). -/
theorem removeTrack_always_broadcasts (st : CastSession) (sd : SessionData)
    (auth : Option String) (t : String)
    (hsd : st.sessionData = some sd)
    (ha : auth = some (bearerOf sd.casterToken)) :
    (handleRemoveTrack st auth t).resp = ⟨200, RespBody.successJson⟩
    ∧ (handleRemoveTrack st auth t).sends = broadcastSends st (Event.trackRemoved t)
    ∧ (∀ c ∈ st.sessions, c.isOpen = true →
        (c.id, Event.trackRemoved t) ∈ (handleRemoveTrack st auth t).sends) := by
  refine ⟨?_, ?_, ?_⟩
  · cases htn : sd.trackNames <;> simp [handleRemoveTrack, hsd, ha, htn]
  · cases htn : sd.trackNames <;> simp [handleRemoveTrack, hsd, ha, htn]
  · intro c hc hop
    have hb : (c.id, Event.trackRemoved t) ∈ broadcastSends st (Event.trackRemoved t) :=
      List.mem_map_of_mem _ (List.mem_filter.mpr ⟨hc, by simp [hop]⟩)
    cases htn : sd.trackNames <;> simpa [handleRemoveTrack, hsd, ha, htn] using hb

/-- Claim C10, witness: removing the never-added name `"ghost"` from a
freshly initialized session still succeeds and the viewer connection
receives the `track-removed` event. -/
theorem removeTrack_always_broadcasts_witness :
    (handleRemoveTrack stInit (some "Bearer tok") "ghost").resp
        = ⟨200, RespBody.successJson⟩
    ∧ (7, Event.trackRemoved "ghost")
        ∈ (handleRemoveTrack stInit (some "Bearer tok") "ghost").sends :=
  ⟨(removeTrack_always_broadcasts stInit sdInit (some "Bearer tok") "ghost" rfl rfl).1,
   (removeTrack_always_broadcasts stInit sdInit (some "Bearer tok") "ghost" rfl rfl).2.2
     ⟨7, Role.viewer, true⟩ (by decide) rfl⟩

/-! ## Reachability invariant machinery (for the state-machine claims) -/

/-- A session record slot is token-sound when any record it holds has a
caster token. -/
def tokOk (o : Option SessionData) : Prop :=
  ∀ sd, o = some sd → sd.casterToken.isSome = true

/-- Both the in-memory record and the storage slot are token-sound. -/
def InvTok (st : CastSession) : Prop :=
  tokOk st.sessionData ∧ tokOk st.storage

/-- The record written by a successful `add-track`. -/
def addedSd (sd : SessionData) (tn : String) : SessionData :=
  let tns := sd.trackNames.getD []
  { sd with trackNames := some (if tn ∈ tns then tns else tns ++ [tn]) }

/-- The record written by `remove-track` when `trackNames` is set. -/
def removedSd (sd : SessionData) (tns : List String) (tn : String) : SessionData :=
  { sd with trackNames := some (tns.filter (fun x => x ≠ tn)) }

theorem initConnection_state_eq (st : CastSession) (a : Option String)
    (up : Upstream String) : (handleInitConnection st a up).state = st := by
  unfold handleInitConnection
  split
  · rfl
  · split
    · cases up <;> rfl
    · rfl

theorem renegotiate_state_eq (st : CastSession) (a : Option String)
    (up : Upstream String) : (handleRenegotiate st a up).state = st := by
  unfold handleRenegotiate
  split
  · rfl
  · split
    · cases up <;> rfl
    · rfl

theorem newSession_state_eq (st : CastSession) (up : Upstream String) :
    (handleNewSession st up).state = st := by
  cases up <;> rfl

theorem pullTracks_state_eq (st : CastSession) (up : Upstream String) :
    (handlePullTracks st up).state = st := by
  unfold handlePullTracks
  split
  · rfl
  · split
    · rfl
    · cases up <;> rfl

theorem viewerRenegotiate_state_eq (st : CastSession) (up : Upstream String) :
    (handleViewerRenegotiate st up).state = st := by
  cases up <;> rfl

theorem info_state_eq (st : CastSession) : (handleInfo st).state = st := by
  unfold handleInfo
  split
  · rfl
  · split <;> rfl

theorem callsState_state_eq (st : CastSession) (a : Option String)
    (up : Upstream String) : (handleCallsState st a up).state = st := by
  unfold handleCallsState
  split
  · rfl
  · split
    · split
      · rfl
      · cases up <;> rfl
    · rfl

theorem viewerCallsState_state_eq (st : CastSession) (up : Upstream String) :
    (handleViewerCallsState st up).state = st := by
  cases up <;> rfl

theorem handleInit_invTok (st : CastSession) (i t : String) (n : Nat)
    (h : InvTok st) : InvTok (handleInit st i t n).state := by
  obtain ⟨h1, h2⟩ := h
  cases hsd : st.sessionData with
  | some sd => simpa [handleInit, hsd] using ⟨h1, h2⟩
  | none =>
    have hstate : (handleInit st i t n).state
        = { st with
              sessionData := some ⟨i.take 8, n, some t, none, none⟩,
              storage := some ⟨i.take 8, n, some t, none, none⟩ } := by
      simp [handleInit, hsd]
    rw [hstate]
    exact ⟨fun sd' hsd' => by injection hsd' with h'; rw [← h']; rfl,
           fun sd' hsd' => by injection hsd' with h'; rw [← h']; rfl⟩

theorem handleCallsSession_invTok (st : CastSession) (a : Option String)
    (up : Upstream CallsData) (h : InvTok st) :
    InvTok (handleCallsSession st a up).state := by
  obtain ⟨h1, h2⟩ := h
  cases hsd : st.sessionData with
  | none => simpa [handleCallsSession, hsd, unauthorizedOut] using ⟨h1, h2⟩
  | some sd =>
    have htok := h1 sd hsd
    by_cases ha : a = some (bearerOf sd.casterToken)
    · cases up with
      | err e => simpa [handleCallsSession, hsd, ha] using ⟨h1, h2⟩
      | ok cd =>
        have hstate : (handleCallsSession st a (Upstream.ok cd)).state
            = { st with
                  sessionData := some { sd with callsSessionId := some cd.sessionId },
                  storage := some { sd with callsSessionId := some cd.sessionId } } := by
          simp [handleCallsSession, hsd, ha]
        rw [hstate]
        exact ⟨fun sd' hsd' => by injection hsd' with h'; rw [← h']; exact htok,
               fun sd' hsd' => by injection hsd' with h'; rw [← h']; exact htok⟩
    · simpa [handleCallsSession, hsd, ha, unauthorizedOut] using ⟨h1, h2⟩

theorem handleAddTrack_invTok (st : CastSession) (a : Option String)
    (tn : String) (up : Upstream String) (h : InvTok st) :
    InvTok (handleAddTrack st a tn up).state := by
  obtain ⟨h1, h2⟩ := h
  cases hsd : st.sessionData with
  | none => simpa [handleAddTrack, hsd, unauthorizedOut] using ⟨h1, h2⟩
  | some sd =>
    have htok := h1 sd hsd
    by_cases ha : a = some (bearerOf sd.casterToken)
    · cases up with
      | err e => simpa [handleAddTrack, hsd, ha] using ⟨h1, h2⟩
      | ok p =>
        have hstate : (handleAddTrack st a tn (Upstream.ok p)).state
            = { st with
                  sessionData := some (addedSd sd tn),
                  storage := some (addedSd sd tn) } := by
          simp [handleAddTrack, hsd, ha, addedSd]
        rw [hstate]
        exact ⟨fun sd' hsd' => by injection hsd' with h'; rw [← h']; exact htok,
               fun sd' hsd' => by injection hsd' with h'; rw [← h']; exact htok⟩
    · simpa [handleAddTrack, hsd, ha, unauthorizedOut] using ⟨h1, h2⟩

theorem handleRemoveTrack_invTok (st : CastSession) (a : Option String)
    (tn : String) (h : InvTok st) :
    InvTok (handleRemoveTrack st a tn).state := by
  obtain ⟨h1, h2⟩ := h
  cases hsd : st.sessionData with
  | none => simpa [handleRemoveTrack, hsd, unauthorizedOut] using ⟨h1, h2⟩
  | some sd =>
    have htok := h1 sd hsd
    by_cases ha : a = some (bearerOf sd.casterToken)
    · cases htn : sd.trackNames with
      | none => simpa [handleRemoveTrack, hsd, ha, htn] using ⟨h1, h2⟩
      | some tns =>
        have hstate : (handleRemoveTrack st a tn).state
            = { st with
                  sessionData := some (removedSd sd tns tn),
                  storage := some (removedSd sd tns tn) } := by
          simp [handleRemoveTrack, hsd, ha, htn, removedSd]
        rw [hstate]
        exact ⟨fun sd' hsd' => by injection hsd' with h'; rw [← h']; exact htok,
               fun sd' hsd' => by injection hsd' with h'; rw [← h']; exact htok⟩
    · simpa [handleRemoveTrack, hsd, ha, unauthorizedOut] using ⟨h1, h2⟩

theorem invTok_step (st : CastSession) (op : Op) (h : InvTok st) :
    InvTok (stepState st op) := by
  cases op with
  | init i t n => exact handleInit_invTok st i t n h
  | callsSession a up => exact handleCallsSession_invTok st a up h
  | initConnection a up =>
    simpa [stepState, initConnection_state_eq] using h
  | renegotiate a up => simpa [stepState, renegotiate_state_eq] using h
  | addTrack a tn up => exact handleAddTrack_invTok st a tn up h
  | newSession up => simpa [stepState, newSession_state_eq] using h
  | pullTracks up => simpa [stepState, pullTracks_state_eq] using h
  | viewerRenegotiate up => simpa [stepState, viewerRenegotiate_state_eq] using h
  | removeTrack a tn => exact handleRemoveTrack_invTok st a tn h
  | infoReq => simpa [stepState, info_state_eq] using h
  | callsState a up => simpa [stepState, callsState_state_eq] using h
  | viewerCallsState up => simpa [stepState, viewerCallsState_state_eq] using h
  | wsAttach c r => exact ⟨h.1, h.2⟩
  | wsMsg s m => exact h
  | wsClose c => exact ⟨h.1, h.2⟩
  | restart => exact ⟨h.2, h.2⟩

theorem invTok_runOps (ops : List Op) (st : CastSession) (h : InvTok st) :
    InvTok (runOps st ops) := by
  induction ops generalizing st with
  | nil => exact h
  | cons op rest ih => exact ih (stepState st op) (invTok_step st op h)

/-- Claim C8 (amended): in every reachable state, a non-empty
`trackNames` implies only that the session is initialized (its record
exists and carries a caster token); the `SFULinked` requirement is not
enforced, since `add-track` checks only the bearer token, so non-empty
`trackNames` with no linked SFU session is reachable. -/
theorem tracks_nonempty_requires_initialized (st : CastSession)
    (h : Reachable st) (sd : SessionData)
    (hsd : st.sessionData = some sd)
    (_hne : sd.trackNames.getD [] ≠ []) :
    sd.casterToken.isSome = true := by
  obtain ⟨ops, hops⟩ := h
  have hinit : InvTok initialState :=
    ⟨fun sd' hsd' => by simp [initialState] at hsd',
     fun sd' hsd' => by simp [initialState] at hsd'⟩
  have := invTok_runOps ops initialState hinit
  rw [hops] at this
  exact this.1 sd hsd

/-- Claim C8, counterexample: `init` followed by `add-track` with the
valid token and a successful upstream call — no SFU session ever
created — reaches a state whose record has `trackNames = ["t1"]` and
`callsSessionId = none`, refuting the claim that no operation sequence
produces non-empty `trackNames` without a linked SFU session. -/
theorem addTrack_without_sfu_link :
    (runOps initialState c8Ops).sessionData
      = some { sessionId := "abcd1234", createdAt := 0, casterToken := some "tok",
               callsSessionId := none, trackNames := some ["t1"] } := by
  decide

/-- Claim C8, witness at the state reached by `c8Ops`. -/
theorem tracks_nonempty_requires_initialized_witness :
    (SessionData.casterToken
      { sessionId := "abcd1234", createdAt := 0, casterToken := some "tok",
        callsSessionId := none, trackNames := some ["t1"] }).isSome = true :=
  tracks_nonempty_requires_initialized (runOps initialState c8Ops) ⟨c8Ops, rfl⟩
    { sessionId := "abcd1234", createdAt := 0, casterToken := some "tok",
      callsSessionId := none, trackNames := some ["t1"] }
    (by decide) (by decide)

end Cast
